import Mathlib

/-!
Verification of the suspension/correlation core of the SalesShortcut repository.

The development shallowly embeds the relevant Python code:
* `HumanInteractionManager` and the module-level helpers of
  `sdr/sdr/sub_agents/outreach_email_agent/sub_agents/website_creator/tools/human_creation_tool.py`;
* the `/api/human-input/{request_id}` Starlette route of `sdr/__main__.py`;
* `ConnectionManager.send_update`, `agent_callback` and
  `submit_human_input_response` of `ui_client/main.py`;
* the `_awaiting_auth` bookkeeping of `sdr/agent_executor.py`.

Python dictionaries are modelled as association lists with
replace-or-append insertion; nondeterministic inputs of the code
(uuid draws, wall-clock readings, network success, the registry state
observed by a poll) are explicit parameters of the embedded functions.
-/

set_option autoImplicit false

/-- First-match lookup in an association list (Python `dict.get`). -/
def dGet {α : Type} (l : List (String × α)) (k : String) : Option α :=
  match l with
  | [] => none
  | (k1, v) :: rest => if k1 = k then some v else dGet rest k

/-- Replace-or-append insertion (Python `dict[k] = v`). -/
def dSet {α : Type} (l : List (String × α)) (k : String) (v : α) : List (String × α) :=
  match l with
  | [] => [(k, v)]
  | (k1, w) :: rest => if k1 = k then (k1, v) :: rest else (k1, w) :: dSet rest k v

/-- Removal of the binding of `k` (Python `del dict[k]` / `dict.pop(k)`). -/
def dErase {α : Type} (l : List (String × α)) (k : String) : List (String × α) :=
  match l with
  | [] => []
  | (k1, w) :: rest => if k1 = k then rest else (k1, w) :: dErase rest k

/-- The keys of an association list. -/
def dKeys {α : Type} (l : List (String × α)) : List String :=
  l.map Prod.fst

/-! ## `human_creation_tool.py`: the human-interaction correlation registry -/

/-- The `RequestStatus` enum of `human_creation_tool.py`. -/
inductive RequestStatus where
  | pending
  | completed
  | cancelled
deriving DecidableEq, Repr

/-- The `HumanRequest` dataclass. `created_at` is the `datetime.now()` reading
at construction, modelled as a `Nat`. -/
structure HumanRequest where
  request_id : String
  prompt : String
  status : RequestStatus
  url_response : Option String
  created_at : Nat
deriving DecidableEq, Repr

/-- The `HumanInteractionManager._pending_requests` dict. -/
abbrev Registry := List (String × HumanRequest)

/-- Embedding of `HumanInteractionManager.create_request`. The Python code draws
`str(uuid.uuid4())[:8]` for the id; the draw is the explicit `request_id`
parameter here, and the clock reading is `now`. -/
def create_request (r : Registry) (request_id prompt : String) (now : Nat) :
    String × Registry :=
  (request_id,
   dSet r request_id
     { request_id := request_id, prompt := prompt, status := RequestStatus.pending,
       url_response := none, created_at := now })

/-- Embedding of `HumanInteractionManager.get_request`. -/
def get_request (r : Registry) (request_id : String) : Option HumanRequest :=
  dGet r request_id

/-- Embedding of `HumanInteractionManager.update_request`: if the id is present, set
status to COMPLETED and store the url. -/
def update_request (r : Registry) (request_id url : String) : Registry :=
  match dGet r request_id with
  | none => r
  | some req =>
      dSet r request_id { req with status := RequestStatus.completed, url_response := some url }

/-- Embedding of `HumanInteractionManager.cancel_request`: if the id is present, set
status to CANCELLED (unconditionally on the current status). -/
def cancel_request (r : Registry) (request_id : String) : Registry :=
  match dGet r request_id with
  | none => r
  | some req => dSet r request_id { req with status := RequestStatus.cancelled }

/-- Embedding of `HumanInteractionManager.cleanup_request`: delete the binding if present. -/
def cleanup_request (r : Registry) (request_id : String) : Registry :=
  match dGet r request_id with
  | none => r
  | some _ => dErase r request_id

/-- Module-level `submit_human_response`: succeeds (and completes the
request) only when the id is present with status PENDING. -/
def submit_human_response (r : Registry) (request_id url : String) :
    Bool × Registry :=
  match dGet r request_id with
  | some req =>
      if req.status = RequestStatus.pending then (true, update_request r request_id url)
      else (false, r)
  | none => (false, r)

/-- Module-level `cancel_human_request`: succeeds (and cancels) only when
the id is present with status PENDING. -/
def cancel_human_request (r : Registry) (request_id : String) :
    Bool × Registry :=
  match dGet r request_id with
  | some req =>
      if req.status = RequestStatus.pending then (true, cancel_request r request_id)
      else (false, r)
  | none => (false, r)

/-- A resolve/cancel call against the registry (the two guarded
entry points callers use to move a request out of PENDING). -/
inductive RegOp where
  | submit (id url : String)
  | cancel (id : String)
deriving DecidableEq, Repr

/-- The id a registry operation targets. -/
def RegOp.target : RegOp → String
  | RegOp.submit id _ => id
  | RegOp.cancel id => id

/-- Run one operation, returning its boolean result and the new registry. -/
def applyOp (r : Registry) (op : RegOp) : Bool × Registry :=
  match op with
  | RegOp.submit id url => submit_human_response r id url
  | RegOp.cancel id => cancel_human_request r id

/-- Run a sequence of operations, returning the final registry. -/
def runOps (r : Registry) (ops : List RegOp) : Registry :=
  match ops with
  | [] => r
  | op :: rest => runOps (applyOp r op).2 rest

/-- How many operations in the sequence targeting `id` return `True`. -/
def succCount (r : Registry) (ops : List RegOp) (id : String) : Nat :=
  match ops with
  | [] => 0
  | op :: rest =>
      (if (applyOp r op).1 && (op.target == id) then 1 else 0) +
        succCount (applyOp r op).2 rest id

/-! ## The suspension call: `wait_for_human_response` and `human_creation` -/

/-- Python truthiness of an optional string (`None` and `""` are falsy). -/
def pyTruthy (o : Option String) : Bool :=
  match o with
  | none => false
  | some s => !(s == "")

/-- Python `a or b` on optional strings. -/
def pyOr (a b : Option String) : Option String :=
  if pyTruthy a then a else b

/-- The decisive poll of `wait_for_human_response`.  The loop re-reads the
registry once per second; `r` is the registry contents observed at the
poll and `elapsed` the monotonic-clock seconds since the wait started.
`some (res, r2)` means the call returns `res` leaving the registry `r2`;
`none` means the poll keeps waiting (entry still PENDING, bound not yet
exceeded).  The default bound is 300 seconds, from the Python signature
`timeout: int = 300`. -/
def wait_for_human_response (r : Registry) (request_id : String)
    (elapsed timeout : Nat) :
    Option (Option String × Registry) :=
  match dGet r request_id with
  | none => some (none, r)
  | some req =>
      if req.status = RequestStatus.completed then some (req.url_response, r)
      else if req.status = RequestStatus.cancelled then some (none, r)
      else if elapsed > timeout then some (none, cancel_request r request_id)
      else none

/-- Embedding of `human_creation`: create the request, notify the UI (`notifyOk` is the
`send_ui_notification` outcome), then wait.  `env` is the interference of
the rest of the system on the shared registry between the notification and
the decisive poll (e.g. a concurrent `submit_human_response`).  The wait is
invoked without a timeout argument, so the 300-second default applies.
`none` means the call is still polling; `some (msg, r2)` means it returns
`msg` with final registry `r2`.  Every returning path runs
`cleanup_request` first. -/
def human_creation (r : Registry) (request_id prompt : String) (now : Nat)
    (notifyOk : Bool) (env : Registry → Registry) (elapsed : Nat) :
    Option (String × Registry) :=
  let r1 := (create_request r request_id prompt now).2
  if notifyOk = false then
    some ("Error: Failed to notify UI. Please ensure the UI service is running.",
          cleanup_request r1 request_id)
  else
    match wait_for_human_response (env r1) request_id elapsed 300 with
    | none => none
    | some (some url, r2) => some (url, cleanup_request r2 request_id)
    | some (none, r2) =>
        some ("Error: Human response not received within timeout period.",
              cleanup_request r2 request_id)

/-! ## `sdr/__main__.py`: the `/api/human-input/{request_id}` route -/

/-- The `human_input_callback` Starlette endpoint: parse the JSON body
(`jsonOk` is whether `request.json()` succeeded), read `url` or `response`
from the payload, reject missing/falsy fields with 400, then call
`submit_human_response`; 200 on success, 404 otherwise.  Result:
`((status_code, body_status), new registry)`. -/
def human_input_callback (r : Registry) (request_id : Option String)
    (jsonOk : Bool) (payload_url payload_response : Option String) :
    (Nat × String) × Registry :=
  if jsonOk = false then ((400, "failed"), r)
  else if !pyTruthy request_id || !pyTruthy (pyOr payload_url payload_response) then
    ((400, "failed"), r)
  else
    match request_id, pyOr payload_url payload_response with
    | some rid, some u =>
        if (submit_human_response r rid u).1 then
          ((200, "success"), (submit_human_response r rid u).2)
        else ((404, "failed"), (submit_human_response r rid u).2)
    | _, _ => ((400, "failed"), r)

/-! ## Id generation for `create_request` -/

/-- The shape of a value `str(uuid.uuid4())[:8]` can take: 8 lowercase hex
characters (the first eight characters of the canonical uuid rendering). -/
def isHex8 (s : String) : Bool :=
  s.length == 8 && s.data.all (fun c => "0123456789abcdef".data.contains c)

/-- Run a sequence of `create_request` calls; each call carries its uuid
draw, prompt and clock reading.  Returns the returned ids and the final
registry. -/
def runCreates (r : Registry) (calls : List (String × String × Nat)) :
    List String × Registry :=
  match calls with
  | [] => ([], r)
  | (id, prompt, now) :: rest =>
      let res := create_request r id prompt now
      let rest2 := runCreates res.2 rest
      (res.1 :: rest2.1, rest2.2)

/-! ## `ui_client/main.py`: `ConnectionManager` WebSocket fan-out -/

/-- Embedding of `ConnectionManager.disconnect`: `set.discard` of one connection.
Connections are identified by numbers; the set is modelled as a
duplicate-free list. -/
def disconnect (conns : List Nat) (c : Nat) : List Nat :=
  conns.erase c

/-- Embedding of `ConnectionManager.send_update`: send to every connection; a connection
whose `send_text` raises (`fails c = true`) is collected in `disconnected`
and afterwards removed via `disconnect`.  The per-connection `try/except`
is what makes the Python coroutine return normally whatever `fails` is.
Returns (connections the message reached, new connection set). -/
def send_update (conns : List Nat) (fails : Nat → Bool) : List Nat × List Nat :=
  if conns.isEmpty then ([], conns)
  else
    ((conns.filter fun c => !fails c), (conns.filter fails).foldl disconnect conns)

/-! ## `ui_client/main.py`: entity store and `/agent_callback` -/

/-- The `BusinessStatus` enum. -/
inductive BusinessStatus where
  | found
  | contacted
  | engaged
  | not_interested
  | no_response
  | converting
  | meeting_scheduled
deriving DecidableEq, Repr

/-- The `AgentType` enum. -/
inductive AgentType where
  | lead_finder
  | sdr
  | lead_manager
  | calendar
deriving DecidableEq, Repr

/-- The string value of an `AgentType` member. -/
def AgentType.value : AgentType → String
  | AgentType.lead_finder => "lead_finder"
  | AgentType.sdr => "sdr"
  | AgentType.lead_manager => "lead_manager"
  | AgentType.calendar => "calendar"

/-- The `Business` Pydantic model (the dashboard entity); clock readings are
`Nat`s. -/
structure Business where
  id : String
  name : String
  phone : Option String
  email : Option String
  description : Option String
  city : String
  status : BusinessStatus
  created_at : Nat
  updated_at : Nat
  notes : List String
deriving DecidableEq, Repr

/-- The `AgentUpdate` Pydantic model; `data` holds the string-valued fields
of the optional JSON payload, with `[]` as the defaulted empty dict. -/
structure AgentUpdate where
  agent_type : AgentType
  business_id : String
  status : BusinessStatus
  message : String
  data : List (String × String)
deriving DecidableEq, Repr

/-- The id→`Business` map `app_state["businesses"]`. -/
abbrev Businesses := List (String × Business)

/-- The note string appended on each update. -/
def agentNote (u : AgentUpdate) : String :=
  u.agent_type.value ++ ": " ++ u.message

/-- Extraction `name = data.get("name") or data.get("sender_name") or data.get("lead_name")`. -/
def cbName (d : List (String × String)) : Option String :=
  pyOr (pyOr (dGet d "name") (dGet d "sender_name")) (dGet d "lead_name")

/-- Extraction `city = data.get("city") or ""`. -/
def cbCity (d : List (String × String)) : String :=
  match pyOr (dGet d "city") (some "") with
  | some s => s
  | none => ""

/-- Extraction `phone = data.get("phone") or data.get("lead_phone") or data.get("phone_number")`. -/
def cbPhone (d : List (String × String)) : Option String :=
  pyOr (pyOr (dGet d "phone") (dGet d "lead_phone")) (dGet d "phone_number")

/-- Extraction `email = data.get("email") or data.get("sender_email") or data.get("lead_email")`. -/
def cbEmail (d : List (String × String)) : Option String :=
  pyOr (pyOr (dGet d "email") (dGet d "sender_email")) (dGet d "lead_email")

/-- Extraction `description = data.get("description") or data.get("subject") or
data.get("email_subject") or data.get("body_preview")`. -/
def cbDescription (d : List (String × String)) : Option String :=
  pyOr (pyOr (pyOr (dGet d "description") (dGet d "subject")) (dGet d "email_subject"))
    (dGet d "body_preview")

/-- The `/agent_callback` endpoint of `ui_client/main.py`.  `now` is the
`datetime.now()` reading used for `updated_at`/`created_at`.  Returns
(HTTP status code, broadcast event types emitted through
`manager.send_update`, new business map).  The `try/except` around
`Business(...)` cannot fail here (every field is a plain string), and the
second calendar branch after the early calendar `return` is unreachable
dead code. -/
def agent_callback (bs : Businesses) (u : AgentUpdate) (now : Nat) :
    Nat × List String × Businesses :=
  if u.agent_type = AgentType.calendar then
    match dGet bs u.business_id with
    | some b =>
        (200, ["business_updated", "calendar_notification"],
         dSet bs u.business_id
           { b with status := u.status, updated_at := now,
                    notes := b.notes ++ [agentNote u] })
    | none => (200, ["calendar_notification"], bs)
  else
    match dGet bs u.business_id with
    | some b =>
        (200, ["business_updated"],
         dSet bs u.business_id
           { b with status := u.status, updated_at := now,
                    notes := b.notes ++ [agentNote u] })
    | none =>
        if pyTruthy (cbName u.data) = false then (400, [], bs)
        else
          (200, ["business_updated"],
           dSet bs u.business_id
             { id := u.business_id,
               name := (cbName u.data).getD "",
               phone := cbPhone u.data,
               email := cbEmail u.data,
               description := cbDescription u.data,
               city := cbCity u.data,
               status := u.status,
               created_at := now,
               updated_at := now,
               notes := [agentNote u] })

/-! ## `sdr/agent_executor.py`: the `_awaiting_auth` map -/

/-- The state of an `asyncio.Future`. -/
inductive FutureState where
  | waiting
  | resolved (uri : String)
deriving DecidableEq, Repr

/-- The `_awaiting_auth` map: state token → (owning attempt, future state).  The
owner tag distinguishes the future objects created by different attempts. -/
abbrev AwaitingAuth := List (String × (Nat × FutureState))

/-- The `_awaiting_auth` registration done by `_prepare_auth_request`: the
state token is read from `auth_config.exchanged_auth_credential.oauth2.state`
(provider-issued; this code neither generates nor checks it) and a fresh
future owned by the current attempt is stored under it, replacing any
existing binding. -/
def prepare_auth_request (m : AwaitingAuth) (state_token : String) (owner : Nat) :
    AwaitingAuth :=
  dSet m state_token (owner, FutureState.waiting)

/-- Embedding of `on_auth_callback`: resolve the future registered under `state` if any;
an unknown state only logs a warning and changes nothing.  `none` models
`Future.set_result` raising `InvalidStateError` on an already-resolved
future. -/
def on_auth_callback (m : AwaitingAuth) (state uri : String) :
    Option AwaitingAuth :=
  match dGet m state with
  | some (owner, FutureState.waiting) =>
      some (dSet m state (owner, FutureState.resolved uri))
  | some (_, FutureState.resolved _) => none
  | none => some m

/-- The constant `auth_receive_timeout_seconds = 60` of `sdr/agent_executor.py`:
the bound `_complete_auth_processing` passes to `asyncio.wait_for`. -/
def auth_receive_timeout_seconds : Nat := 60

/-! ## `ui_client/main.py`: human-input relay endpoint -/

/-- The stored `HumanInputRequest` Pydantic model of `ui_client/main.py`. -/
structure UiHumanInputRequest where
  request_id : String
  prompt : String
  input_type : String
  timestamp : String
deriving DecidableEq, Repr

/-- Embedding of the `submit_human_input_response` endpoint: 404 when the id is not in the
UI's `human_input_requests` store; otherwise relay the response to the SDR
agent (`relay` is `none` when the POST raised, `some code` for an HTTP
reply), remove the entry only when the relay returned 200, then broadcast
`human_input_response_submitted` and return 200/"success" regardless of
the relay outcome.  Result: ((status code, body status), broadcast event
types, new store). -/
def submit_human_input_response (pending : List (String × UiHumanInputRequest))
    (request_id response : String) (relay : Option Nat) :
    (Nat × String) × List String × List (String × UiHumanInputRequest) :=
  match dGet pending request_id with
  | none => ((404, "error"), [], pending)
  | some _ =>
      ((200, "success"), ["human_input_response_submitted"],
       if relay == some 200 then dErase pending request_id else pending)

theorem dGet_dSet_self {α : Type} (l : List (String × α)) (k : String) (v : α) :
    dGet (dSet l k v) k = some v := by
  induction l with
  | nil => simp [dGet, dSet]
  | cons hd tl ih =>
    obtain ⟨k1, w⟩ := hd
    by_cases h : k1 = k
    · simp [dGet, dSet, h]
    · simp [dGet, dSet, h, ih]

theorem dGet_dSet_ne {α : Type} (l : List (String × α)) (k k2 : String) (v : α)
    (h : k2 ≠ k) : dGet (dSet l k v) k2 = dGet l k2 := by
  have hne : ¬ k = k2 := fun he => h he.symm
  induction l with
  | nil => simp [dGet, dSet, hne]
  | cons hd tl ih =>
    obtain ⟨k1, w⟩ := hd
    by_cases h1 : k1 = k
    · subst h1
      simp [dGet, dSet, hne]
    · by_cases h2 : k1 = k2
      · simp [dGet, dSet, h1, h2, h]
      · simp [dGet, dSet, h1, h2, ih]

theorem dGet_dErase_ne {α : Type} (l : List (String × α)) (k k2 : String)
    (h : k2 ≠ k) : dGet (dErase l k) k2 = dGet l k2 := by
  have hne : ¬ k = k2 := fun he => h he.symm
  induction l with
  | nil => simp [dErase]
  | cons hd tl ih =>
    obtain ⟨k1, w⟩ := hd
    by_cases h1 : k1 = k
    · subst h1
      simp [dErase, dGet, hne]
    · by_cases h2 : k1 = k2
      · simp [dErase, dGet, h1, h2, h]
      · simp [dErase, dGet, h1, h2, ih]

theorem dGet_eq_none_of_not_mem_keys {α : Type} (l : List (String × α)) (k : String)
    (h : k ∉ dKeys l) : dGet l k = none := by
  induction l with
  | nil => rfl
  | cons hd tl ih =>
    obtain ⟨k1, w⟩ := hd
    simp only [dKeys, List.map_cons, List.mem_cons, not_or] at h
    have h1 : ¬ k1 = k := fun he => h.1 he.symm
    simp only [dGet, if_neg h1]
    exact ih h.2

theorem dGet_dErase_self {α : Type} (l : List (String × α)) (k : String)
    (h : (dKeys l).Nodup) : dGet (dErase l k) k = none := by
  induction l with
  | nil => rfl
  | cons hd tl ih =>
    obtain ⟨k1, w⟩ := hd
    simp only [dKeys, List.map_cons, List.nodup_cons] at h
    by_cases h1 : k1 = k
    · simp only [dErase, if_pos h1]
      subst h1
      exact dGet_eq_none_of_not_mem_keys tl k1 h.1
    · simp only [dErase, if_neg h1, dGet, if_neg h1]
      exact ih h.2

theorem dKeys_dSet {α : Type} (l : List (String × α)) (k : String) (v : α) :
    dKeys (dSet l k v) = dKeys l ∨ dKeys (dSet l k v) = dKeys l ++ [k] := by
  induction l with
  | nil => right; rfl
  | cons hd tl ih =>
    obtain ⟨k1, w⟩ := hd
    by_cases h : k1 = k
    · left
      simp [dSet, h, dKeys]
    · have hstep : dSet ((k1, w) :: tl) k v = (k1, w) :: dSet tl k v := by
        simp [dSet, h]
      rcases ih with ih | ih <;> simp only [dKeys] at ih
      · left
        rw [hstep]
        simp only [dKeys, List.map_cons, ih]
      · right
        rw [hstep]
        simp only [dKeys, List.map_cons, ih]
        rfl

theorem dKeys_dSet_nodup {α : Type} (l : List (String × α)) (k : String) (v : α)
    (h : (dKeys l).Nodup) : (dKeys (dSet l k v)).Nodup := by
  induction l with
  | nil => simp [dSet, dKeys]
  | cons hd tl ih =>
    obtain ⟨k1, w⟩ := hd
    simp only [dKeys, List.map_cons, List.nodup_cons] at h
    by_cases hk : k1 = k
    · simp only [dSet, if_pos hk, dKeys, List.map_cons, List.nodup_cons]
      exact ⟨h.1, h.2⟩
    · simp only [dSet, if_neg hk, dKeys, List.map_cons, List.nodup_cons]
      refine ⟨?_, ih h.2⟩
      intro hmem
      rcases dKeys_dSet tl k v with heq | heq <;> simp only [dKeys] at heq
      · rw [heq] at hmem
        exact h.1 hmem
      · rw [heq] at hmem
        rcases List.mem_append.mp hmem with hmem2 | hmem2
        · exact h.1 hmem2
        · exact hk (List.mem_singleton.mp hmem2)

theorem dErase_sublist {α : Type} (l : List (String × α)) (k : String) :
    (dErase l k).Sublist l := by
  induction l with
  | nil => exact List.Sublist.refl []
  | cons hd tl ih =>
    obtain ⟨k1, w⟩ := hd
    by_cases hk : k1 = k
    · simpa [dErase, if_pos hk] using (List.sublist_cons (k1, w) tl)
    · simpa [dErase, if_neg hk] using ih.cons₂ (k1, w)

theorem dKeys_dErase_nodup {α : Type} (l : List (String × α)) (k : String)
    (h : (dKeys l).Nodup) : (dKeys (dErase l k)).Nodup :=
  ((dErase_sublist l k).map Prod.fst).nodup h

theorem applyOp_target_terminal (r : Registry) (op : RegOp) (req : HumanRequest)
    (h : get_request r op.target = some req)
    (hterm : req.status ≠ RequestStatus.pending) :
    applyOp r op = (false, r) := by
  cases op with
  | submit id url =>
    simp only [RegOp.target, get_request] at h
    simp only [applyOp, submit_human_response, h, if_neg hterm]
  | cancel id =>
    simp only [RegOp.target, get_request] at h
    simp only [applyOp, cancel_human_request, h, if_neg hterm]

theorem applyOp_frame (r : Registry) (op : RegOp) (id : String)
    (h : op.target ≠ id) :
    get_request (applyOp r op).2 id = get_request r id := by
  cases op with
  | submit tid url =>
    simp only [RegOp.target] at h
    simp only [applyOp, submit_human_response]
    cases hg : dGet r tid with
    | none => rfl
    | some req =>
      by_cases hp : req.status = RequestStatus.pending
      · simp only [if_pos hp, update_request, hg, get_request]
        exact dGet_dSet_ne r tid id _ (Ne.symm h)
      · simp only [if_neg hp]
  | cancel tid =>
    simp only [RegOp.target] at h
    simp only [applyOp, cancel_human_request]
    cases hg : dGet r tid with
    | none => rfl
    | some req =>
      by_cases hp : req.status = RequestStatus.pending
      · simp only [if_pos hp, cancel_request, hg, get_request]
        exact dGet_dSet_ne r tid id _ (Ne.symm h)
      · simp only [if_neg hp]

theorem applyOp_success_terminal (r : Registry) (op : RegOp)
    (h : (applyOp r op).1 = true) :
    ∃ req, get_request (applyOp r op).2 op.target = some req ∧
      req.status ≠ RequestStatus.pending := by
  cases op with
  | submit id url =>
    simp only [applyOp, submit_human_response, RegOp.target] at h ⊢
    cases hg : dGet r id with
    | none => rw [hg] at h; simp at h
    | some req =>
      by_cases hp : req.status = RequestStatus.pending
      · simp only [hg, if_pos hp]
        refine ⟨{ req with status := RequestStatus.completed, url_response := some url },
          ?_, by simp⟩
        simp only [update_request, hg, get_request]
        exact dGet_dSet_self r id _
      · rw [hg] at h
        simp only [if_neg hp] at h
        simp at h
  | cancel id =>
    simp only [applyOp, cancel_human_request, RegOp.target] at h ⊢
    cases hg : dGet r id with
    | none => rw [hg] at h; simp at h
    | some req =>
      by_cases hp : req.status = RequestStatus.pending
      · simp only [hg, if_pos hp]
        refine ⟨{ req with status := RequestStatus.cancelled }, ?_, by simp⟩
        simp only [cancel_request, hg, get_request]
        exact dGet_dSet_self r id _
      · rw [hg] at h
        simp only [if_neg hp] at h
        simp at h

theorem runOps_terminal_immutable (ops : List RegOp) :
    ∀ (r : Registry) (id : String) (req : HumanRequest),
      get_request r id = some req → req.status ≠ RequestStatus.pending →
      get_request (runOps r ops) id = some req ∧ succCount r ops id = 0 := by
  induction ops with
  | nil => intro r id req h _; exact ⟨h, rfl⟩
  | cons op rest ih =>
    intro r id req h hterm
    by_cases hop : op.target = id
    · have hstep : applyOp r op = (false, r) :=
        applyOp_target_terminal r op req (by rw [hop]; exact h) hterm
      have hrest := ih r id req h hterm
      refine ⟨?_, ?_⟩
      · simpa only [runOps, hstep] using hrest.1
      · simp only [succCount, hstep]
        simpa using hrest.2
    · have hframe := applyOp_frame r op id hop
      have h2 : get_request (applyOp r op).2 id = some req := by rw [hframe]; exact h
      have hrest := ih (applyOp r op).2 id req h2 hterm
      refine ⟨hrest.1, ?_⟩
      have hbeq : (op.target == id) = false := by simpa using hop
      have hcond : ((applyOp r op).1 && (op.target == id)) = false := by
        simp [hbeq]
      simpa [succCount, hcond] using hrest.2

theorem succCount_le_one (ops : List RegOp) :
    ∀ (r : Registry) (id : String), succCount r ops id ≤ 1 := by
  induction ops with
  | nil => intro r id; simp [succCount]
  | cons op rest ih =>
    intro r id
    simp only [succCount]
    by_cases hb : ((applyOp r op).1 && (op.target == id)) = true
    · have h12 := hb
      rw [Bool.and_eq_true] at h12
      have h1 : (applyOp r op).1 = true := h12.1
      have h2 : op.target = id := by simpa using h12.2
      obtain ⟨req, hreq, hterm⟩ := applyOp_success_terminal r op h1
      rw [h2] at hreq
      have hzero := (runOps_terminal_immutable rest (applyOp r op).2 id req hreq hterm).2
      simp only [hb, if_true, hzero]
      omega
    · have hb2 : ((applyOp r op).1 && (op.target == id)) = false :=
        Bool.eq_false_iff.mpr hb
      simpa [hb2] using ih (applyOp r op).2 id

/-- C1. At-most-one-winner resolution: over any sequence of
resolve (`submit_human_response`) / cancel (`cancel_human_request`)
operations, at most one operation targeting a given id ever returns
`True`; and once a request is in a terminal (non-PENDING) status, every
subsequent resolve/cancel for that id returns `False` and the stored
status and result are unchanged. -/
theorem at_most_one_winner (r : Registry) (id : String) (ops : List RegOp) :
    succCount r ops id ≤ 1 ∧
    (∀ req, get_request r id = some req → req.status ≠ RequestStatus.pending →
      get_request (runOps r ops) id = some req ∧ succCount r ops id = 0) :=
  ⟨succCount_le_one ops r id,
   fun req h hterm => runOps_terminal_immutable ops r id req h hterm⟩

/-- Witness for C1 at a concrete registry holding a COMPLETED request and a
concrete submit-then-cancel sequence. -/
theorem at_most_one_winner_witness :
    get_request
        (runOps [("a", { request_id := "a", prompt := "p",
                         status := RequestStatus.completed,
                         url_response := some "u", created_at := 0 })]
          [RegOp.submit "a" "v", RegOp.cancel "a"]) "a" =
      some { request_id := "a", prompt := "p", status := RequestStatus.completed,
             url_response := some "u", created_at := 0 } ∧
    succCount [("a", { request_id := "a", prompt := "p",
                       status := RequestStatus.completed,
                       url_response := some "u", created_at := 0 })]
      [RegOp.submit "a" "v", RegOp.cancel "a"] "a" = 0 :=
  (at_most_one_winner
      [("a", { request_id := "a", prompt := "p", status := RequestStatus.completed,
               url_response := some "u", created_at := 0 })]
      "a" [RegOp.submit "a" "v", RegOp.cancel "a"]).2
    { request_id := "a", prompt := "p", status := RequestStatus.completed,
      url_response := some "u", created_at := 0 }
    (by decide) (by decide)

/-- Lemma: `cleanup_request` really deletes the binding (keys assumed unique, as
in a Python dict). -/
theorem get_cleanup_self (r : Registry) (id : String)
    (h : (dKeys r).Nodup) : get_request (cleanup_request r id) id = none := by
  unfold cleanup_request
  cases hg : dGet r id with
  | none => exact hg
  | some req => exact dGet_dErase_self r id h

theorem cancel_request_keys_nodup (r : Registry) (id : String)
    (h : (dKeys r).Nodup) : (dKeys (cancel_request r id)).Nodup := by
  unfold cancel_request
  cases hg : dGet r id with
  | none => exact h
  | some req => exact dKeys_dSet_nodup r id _ h

/-- C2. No leaked waiters: whenever the suspension call returns — notifier
failure, result delivered, cancellation or timeout — the registry entry for
the created id has been removed, so a lookup afterwards finds nothing; and
a notifier failure makes the call fail immediately with the error message.
`henv` says the concurrent interference keeps the registry a dict
(duplicate-free keys), which every registry operation does. -/
theorem no_leaked_waiters (r : Registry) (request_id prompt : String) (now : Nat)
    (notifyOk : Bool) (env : Registry → Registry) (elapsed : Nat)
    (hr : (dKeys r).Nodup)
    (henv : ∀ s, (dKeys s).Nodup → (dKeys (env s)).Nodup) :
    (∀ msg r2, human_creation r request_id prompt now notifyOk env elapsed = some (msg, r2) →
      get_request r2 request_id = none) ∧
    (notifyOk = false →
      human_creation r request_id prompt now notifyOk env elapsed =
        some ("Error: Failed to notify UI. Please ensure the UI service is running.",
              cleanup_request (create_request r request_id prompt now).2 request_id)) := by
  have h1 : (dKeys (create_request r request_id prompt now).2).Nodup :=
    dKeys_dSet_nodup r request_id _ hr
  have henv1 : (dKeys (env (create_request r request_id prompt now).2)).Nodup := henv _ h1
  constructor
  · intro msg r2 hret
    unfold human_creation at hret
    by_cases hn : notifyOk = false
    · rw [if_pos hn] at hret
      have := (Option.some.injEq _ _).mp hret
      have hr2 : r2 = cleanup_request (create_request r request_id prompt now).2 request_id :=
        (Prod.mk.injEq _ _ _ _).mp this |>.2.symm
      rw [hr2]
      exact get_cleanup_self _ _ h1
    · rw [if_neg hn] at hret
      unfold wait_for_human_response at hret
      cases hg : dGet (env (create_request r request_id prompt now).2) request_id with
      | none =>
          rw [hg] at hret
          simp only [Option.some.injEq, Prod.mk.injEq] at hret
          rw [← hret.2]
          exact get_cleanup_self _ _ henv1
      | some req =>
          rw [hg] at hret
          by_cases hc : req.status = RequestStatus.completed
          · simp only [if_pos hc] at hret
            cases hu : req.url_response with
            | none =>
                rw [hu] at hret
                simp only [Option.some.injEq, Prod.mk.injEq] at hret
                rw [← hret.2]
                exact get_cleanup_self _ _ henv1
            | some url =>
                rw [hu] at hret
                simp only [Option.some.injEq, Prod.mk.injEq] at hret
                rw [← hret.2]
                exact get_cleanup_self _ _ henv1
          · by_cases hcan : req.status = RequestStatus.cancelled
            · simp only [if_neg hc, if_pos hcan] at hret
              simp only [Option.some.injEq, Prod.mk.injEq] at hret
              rw [← hret.2]
              exact get_cleanup_self _ _ henv1
            · by_cases ht : elapsed > 300
              · simp only [if_neg hc, if_neg hcan, if_pos ht] at hret
                simp only [Option.some.injEq, Prod.mk.injEq] at hret
                rw [← hret.2]
                exact get_cleanup_self _ _ (cancel_request_keys_nodup _ _ henv1)
              · simp only [if_neg hc, if_neg hcan, if_neg ht] at hret
                exact absurd hret (by simp)
  · intro hn
    unfold human_creation
    rw [if_pos hn]

/-- Witness for C2: a concrete run from the empty registry with a
successful notification and no submission; at 301 elapsed seconds the wait
times out, the call returns the timeout error and the entry is gone. -/
theorem no_leaked_waiters_witness :
    human_creation [] "a" "p" 0 true (fun s => s) 301 =
      some ("Error: Human response not received within timeout period.", []) ∧
    get_request ([] : Registry) "a" = none :=
  ⟨by decide,
   (no_leaked_waiters [] "a" "p" 0 true (fun s => s) 301 (by decide)
       (fun _ h => h)).1
     "Error: Human response not received within timeout period." [] (by decide)⟩

/-- C3. No silent late success: for every id whose registry entry has been
removed (post-timeout cleanup) or is no longer PENDING, a late submit
returns `False` and mutates nothing, and the `/api/human-input/{request_id}`
endpoint answers 404 with the registry unchanged. -/
theorem no_silent_late_success (r : Registry) (id url : String)
    (hid : id ≠ "") (hurl : url ≠ "")
    (h : ∀ req, get_request r id = some req → req.status ≠ RequestStatus.pending) :
    submit_human_response r id url = (false, r) ∧
    human_input_callback r (some id) true (some url) none = ((404, "failed"), r) := by
  have hsub : submit_human_response r id url = (false, r) := by
    unfold submit_human_response
    cases hg : dGet r id with
    | none => rfl
    | some req => simp only [if_neg (h req hg)]
  refine ⟨hsub, ?_⟩
  have htid : pyTruthy (some id) = true := by simp [pyTruthy, hid]
  have hturl : pyTruthy (some url) = true := by simp [pyTruthy, hurl]
  have hpor : pyOr (some url) none = some url := by simp [pyOr, hturl]
  unfold human_input_callback
  rw [hpor]
  simp only [htid, hturl, Bool.not_true, Bool.or_self, if_neg, hsub]
  simp

/-- Witness for C3 at a concrete registry holding a CANCELLED request. -/
theorem no_silent_late_success_witness :
    submit_human_response
        [("b", { request_id := "b", prompt := "p", status := RequestStatus.cancelled,
                 url_response := none, created_at := 0 })] "b" "u" =
      (false, [("b", { request_id := "b", prompt := "p",
                       status := RequestStatus.cancelled,
                       url_response := none, created_at := 0 })]) ∧
    human_input_callback
        [("b", { request_id := "b", prompt := "p", status := RequestStatus.cancelled,
                 url_response := none, created_at := 0 })]
        (some "b") true (some "u") none =
      ((404, "failed"),
       [("b", { request_id := "b", prompt := "p", status := RequestStatus.cancelled,
                url_response := none, created_at := 0 })]) :=
  no_silent_late_success
    [("b", { request_id := "b", prompt := "p", status := RequestStatus.cancelled,
             url_response := none, created_at := 0 })]
    "b" "u" (by decide) (by decide)
    (fun req hr => by
      have hcomb : some (⟨"b", "p", RequestStatus.cancelled, none, 0⟩ : HumanRequest) =
          some req := by
        rw [← hr]
        decide
      rw [← Option.some.inj hcomb]
      decide)

/-- Counterexample for C9: at 100 elapsed seconds — well past the claimed
60-second bound — a pending request makes `wait_for_human_response` (as
invoked by `human_creation`, i.e. with its default bound) keep polling
rather than time out, so the bound applied is not 60 seconds. -/
theorem human_creation_timeout_not_60 :
    wait_for_human_response
        [("a", { request_id := "a", prompt := "p", status := RequestStatus.pending,
                 url_response := none, created_at := 0 })] "a" 100 300 = none ∧
    human_creation [] "a" "p" 0 true (fun s => s) 100 = none ∧
    100 > auth_receive_timeout_seconds := by
  decide

/-- C9 as amended: the bound applied by `wait_for_human_response` when
invoked from `human_creation` is its 300-second default — a pending entry
keeps the call polling exactly as long as `elapsed ≤ 300` — while the OAuth
callback wait uses `auth_receive_timeout_seconds = 60`; the two bounds
differ. -/
theorem human_creation_timeout_bound (r : Registry) (id : String)
    (req : HumanRequest) (elapsed : Nat)
    (h : get_request r id = some req)
    (hp : req.status = RequestStatus.pending) :
    (wait_for_human_response r id elapsed 300 = none ↔ elapsed ≤ 300) ∧
    auth_receive_timeout_seconds = 60 ∧
    (300 : Nat) ≠ auth_receive_timeout_seconds := by
  refine ⟨?_, rfl, by decide⟩
  unfold wait_for_human_response
  simp only [get_request] at h
  rw [h]
  have hc : req.status ≠ RequestStatus.completed := by rw [hp]; decide
  have hcan : req.status ≠ RequestStatus.cancelled := by rw [hp]; decide
  simp only [if_neg hc, if_neg hcan]
  by_cases ht : elapsed > 300
  · simp only [if_pos ht]
    constructor
    · intro hcontra
      exact absurd hcontra (by simp)
    · intro hle
      omega
  · simp only [if_neg ht]
    constructor
    · intro _
      omega
    · intro _
      trivial

/-- Witness for C9's amended bound at a concrete pending registry. -/
theorem human_creation_timeout_bound_witness :
    (wait_for_human_response
        [("a", { request_id := "a", prompt := "p", status := RequestStatus.pending,
                 url_response := none, created_at := 0 })] "a" 300 300 = none ↔
      (300 : Nat) ≤ 300) ∧
    auth_receive_timeout_seconds = 60 ∧
    (300 : Nat) ≠ auth_receive_timeout_seconds :=
  human_creation_timeout_bound
    [("a", { request_id := "a", prompt := "p", status := RequestStatus.pending,
             url_response := none, created_at := 0 })]
    "a"
    { request_id := "a", prompt := "p", status := RequestStatus.pending,
      url_response := none, created_at := 0 }
    300 (by decide) (by decide)

theorem runCreates_ids (calls : List (String × String × Nat)) :
    ∀ r : Registry, (runCreates r calls).1 = calls.map (fun c => c.1) := by
  induction calls with
  | nil => intro r; rfl
  | cons c rest ih =>
    intro r
    obtain ⟨id, prompt, now⟩ := c
    simp [runCreates, create_request, ih]

theorem runCreates_frame (calls : List (String × String × Nat)) :
    ∀ (r : Registry) (id : String), id ∉ calls.map (fun c => c.1) →
      get_request (runCreates r calls).2 id = get_request r id := by
  induction calls with
  | nil => intro r id _; rfl
  | cons c rest ih =>
    intro r id hmem
    obtain ⟨cid, prompt, now⟩ := c
    simp only [List.map_cons, List.mem_cons, not_or] at hmem
    have h1 := ih (create_request r cid prompt now).2 id hmem.2
    simp only [runCreates]
    rw [h1]
    unfold get_request create_request
    exact dGet_dSet_ne r cid id _ hmem.1

theorem runCreates_pending (calls : List (String × String × Nat)) :
    ∀ (r : Registry) (id : String), id ∈ calls.map (fun c => c.1) →
      ∃ req, get_request (runCreates r calls).2 id = some req ∧
        req.status = RequestStatus.pending := by
  induction calls with
  | nil => intro r id h; simp at h
  | cons hd rest ih =>
    intro r id h
    obtain ⟨cid, prompt, now⟩ := hd
    simp only [List.map_cons, List.mem_cons] at h
    by_cases hmem : id ∈ rest.map (fun c2 => c2.1)
    · obtain ⟨req, hreq, hp⟩ := ih (create_request r cid prompt now).2 id hmem
      exact ⟨req, by simpa only [runCreates] using hreq, hp⟩
    · have hid : id = cid := by
        rcases h with h | h
        · exact h
        · exact absurd h hmem
      subst hid
      have hframe := runCreates_frame rest (create_request r id prompt now).2 id hmem
      refine ⟨⟨id, prompt, RequestStatus.pending, none, now⟩, ?_, rfl⟩
      simp only [runCreates]
      rw [hframe]
      unfold get_request create_request
      exact dGet_dSet_self r id _

/-- Counterexample for C4: the code draws `str(uuid.uuid4())[:8]` — an
8-hex-character string — and performs no collision check, so a repeated
draw (here the admissible value "aaaaaaaa" twice) yields two equal
returned ids, and the second create silently overwrites the first request
(prompt "p1" is lost). -/
theorem create_fresh_ids_counterexample :
    isHex8 "aaaaaaaa" = true ∧
    (runCreates [] [("aaaaaaaa", "p1", 0), ("aaaaaaaa", "p2", 1)]).1 =
      ["aaaaaaaa", "aaaaaaaa"] ∧
    ¬ (runCreates [] [("aaaaaaaa", "p1", 0), ("aaaaaaaa", "p2", 1)]).1.Nodup ∧
    get_request (runCreates [] [("aaaaaaaa", "p1", 0), ("aaaaaaaa", "p2", 1)]).2
        "aaaaaaaa" =
      some { request_id := "aaaaaaaa", prompt := "p2",
             status := RequestStatus.pending, url_response := none,
             created_at := 1 } := by
  decide

/-- C4 as amended: each `create_request` call stores its request with
status PENDING and returns exactly the uuid draw as id; the N returned ids
are pairwise distinct whenever the N draws are.  (The code itself never
checks for collision: see the counterexample for a repeated draw.) -/
theorem create_fresh_when_draws_distinct (r : Registry)
    (calls : List (String × String × Nat)) :
    (runCreates r calls).1 = calls.map (fun c => c.1) ∧
    ((calls.map (fun c => c.1)).Nodup → (runCreates r calls).1.Nodup) ∧
    (∀ id, id ∈ calls.map (fun c => c.1) →
      ∃ req, get_request (runCreates r calls).2 id = some req ∧
        req.status = RequestStatus.pending) :=
  ⟨runCreates_ids calls r,
   fun h => (runCreates_ids calls r).symm ▸ h,
   fun id hid => runCreates_pending calls r id hid⟩

/-- Witness for C4's amended statement at two distinct concrete draws. -/
theorem create_fresh_when_draws_distinct_witness :
    (runCreates [] [("aaaaaaaa", "p", 0), ("bbbbbbbb", "q", 1)]).1.Nodup ∧
    (∃ req, get_request
        (runCreates [] [("aaaaaaaa", "p", 0), ("bbbbbbbb", "q", 1)]).2 "aaaaaaaa" =
        some req ∧ req.status = RequestStatus.pending) :=
  ⟨(create_fresh_when_draws_distinct []
      [("aaaaaaaa", "p", 0), ("bbbbbbbb", "q", 1)]).2.1 (by decide),
   (create_fresh_when_draws_distinct []
      [("aaaaaaaa", "p", 0), ("bbbbbbbb", "q", 1)]).2.2 "aaaaaaaa" (by decide)⟩

theorem filter_eq_single (l : List Nat) (c : Nat) (p : Nat → Bool)
    (hnd : l.Nodup) (hc : c ∈ l) (hp : p c = true)
    (ho : ∀ d ∈ l, d ≠ c → p d = false) :
    l.filter p = [c] := by
  induction l with
  | nil => simp at hc
  | cons x rest ih =>
    rcases List.mem_cons.mp hc with hx | hx
    · subst hx
      have hrest : rest.filter p = [] := by
        apply List.filter_eq_nil_iff.mpr
        intro d hd
        have hdc : d ≠ c := by
          intro he
          subst he
          exact (List.nodup_cons.mp hnd).1 hd
        simp [ho d (List.mem_cons_of_mem _ hd) hdc]
      simp [List.filter_cons, hp, hrest]

    · have hxc : x ≠ c := fun he => (List.nodup_cons.mp hnd).1 (he ▸ hx)
      have hpx : p x = false := ho x (List.mem_cons_self x rest) hxc
      rw [List.filter_cons_of_neg (by simp [hpx])]
      exact ih (List.nodup_cons.mp hnd).2 hx
        (fun d hd hdc => ho d (List.mem_cons_of_mem _ hd) hdc)

/-- C5. Broadcast partial-failure isolation: when exactly one of the
connected observers fails, `send_update` delivers the message to all the
others, the new observer set is the old one with the failing observer
removed exactly once (it is no longer a member), and the function returns
normally — the failure never reaches the caller. -/
theorem broadcast_isolated_failure (conns : List Nat) (c : Nat)
    (fails : Nat → Bool)
    (hnd : conns.Nodup) (hc : c ∈ conns) (hf : fails c = true)
    (ho : ∀ d ∈ conns, d ≠ c → fails d = false) :
    (send_update conns fails).1 = conns.erase c ∧
    (send_update conns fails).2 = conns.erase c ∧
    (send_update conns fails).1.length + 1 = conns.length ∧
    c ∉ (send_update conns fails).2 := by
  have hne : conns.isEmpty = false := by
    cases conns with
    | nil => simp at hc
    | cons a l => rfl
  have hfail : conns.filter fails = [c] := filter_eq_single conns c fails hnd hc hf ho
  have hok : (conns.filter fun d => !fails d) = conns.erase c := by
    rw [hnd.erase_eq_filter]
    apply List.filter_congr
    intro d hd
    by_cases hdc : d = c
    · subst hdc
      simp [hf]
    · simp [ho d hd hdc, hdc]
  have hsend : send_update conns fails = (conns.erase c, conns.erase c) := by
    unfold send_update
    rw [hfail, hok]
    simp [hne, disconnect]
  refine ⟨by rw [hsend], by rw [hsend], ?_, ?_⟩
  · rw [hsend]
    have h1 := List.length_erase_of_mem hc
    have hpos : 0 < conns.length := List.length_pos.mpr (List.ne_nil_of_mem hc)
    simp only [h1]
    omega
  · rw [hsend]
    intro hmem
    exact ((hnd.mem_erase_iff).mp hmem).1 rfl

/-- Witness for C5: three observers of which exactly number 2 fails. -/
theorem broadcast_isolated_failure_witness :
    (send_update [1, 2, 3] (fun n => n == 2)).1 = [1, 2, 3].erase 2 ∧
    (send_update [1, 2, 3] (fun n => n == 2)).2 = [1, 2, 3].erase 2 ∧
    (send_update [1, 2, 3] (fun n => n == 2)).1.length + 1 = [1, 2, 3].length ∧
    2 ∉ (send_update [1, 2, 3] (fun n => n == 2)).2 :=
  broadcast_isolated_failure [1, 2, 3] 2 (fun n => n == 2) (by decide) (by decide)
    (by decide) (by decide)

/-- Counterexample for C6, in two parts: (i) a non-calendar update for an
unknown id whose payload carries a name but no location ("city" key
absent) is accepted — HTTP 200, entity created with `city = ""`, one
`business_updated` broadcast — where the claim requires a 4xx validation
error with nothing created and nothing broadcast; (ii) a calendar-agent
update for an unknown id with full identity (name and city) creates no
entity and returns 200 with only a `calendar_notification` broadcast —
neither the creation-with-`business_updated` nor the 4xx rejection the
claim allows. -/
theorem entity_synthesis_counterexample :
    agent_callback []
      { agent_type := AgentType.sdr, business_id := "b1",
        status := BusinessStatus.contacted, message := "m",
        data := [("name", "Acme")] } 5 =
      (200, ["business_updated"],
       [("b1", { id := "b1", name := "Acme", phone := none, email := none,
                 description := none, city := "",
                 status := BusinessStatus.contacted, created_at := 5,
                 updated_at := 5, notes := ["sdr: m"] })]) ∧
    agent_callback []
      { agent_type := AgentType.calendar, business_id := "b1",
        status := BusinessStatus.contacted, message := "m",
        data := [("name", "Acme"), ("city", "LA")] } 5 =
      (200, ["calendar_notification"], []) := by
  decide

/-- C6 as amended: on an unknown id, a non-calendar update creates exactly
one new Business and emits exactly one `business_updated` broadcast when
the payload carries a truthy name (under any of the keys
name/sender_name/lead_name) — location is not required and defaults to
`""` — while a missing or empty name yields HTTP 400, no entity and no
broadcast, the business map unchanged; a calendar update never
synthesizes an entity on an unknown id: whatever the payload, it returns
200 with only a `calendar_notification` broadcast and the map unchanged. -/
theorem entity_synthesis_validation (bs : Businesses) (u : AgentUpdate)
    (now : Nat)
    (hunk : dGet bs u.business_id = none) :
    (u.agent_type ≠ AgentType.calendar → pyTruthy (cbName u.data) = false →
      agent_callback bs u now = (400, [], bs)) ∧
    (u.agent_type ≠ AgentType.calendar → pyTruthy (cbName u.data) = true →
      (agent_callback bs u now).1 = 200 ∧
      (agent_callback bs u now).2.1 = ["business_updated"] ∧
      dGet (agent_callback bs u now).2.2 u.business_id =
        some { id := u.business_id, name := (cbName u.data).getD "",
               phone := cbPhone u.data, email := cbEmail u.data,
               description := cbDescription u.data, city := cbCity u.data,
               status := u.status, created_at := now, updated_at := now,
               notes := [agentNote u] } ∧
      (∀ k, k ≠ u.business_id →
        dGet (agent_callback bs u now).2.2 k = dGet bs k)) ∧
    (u.agent_type = AgentType.calendar →
      agent_callback bs u now = (200, ["calendar_notification"], bs)) := by
  refine ⟨?_, ?_, ?_⟩
  · intro hcal hname
    simp only [agent_callback, if_neg hcal, hunk, if_pos hname]
  · intro hcal hname
    have hcond : ¬ (pyTruthy (cbName u.data) = false) := by simp [hname]
    have hstep : agent_callback bs u now =
        (200, ["business_updated"],
         dSet bs u.business_id
           (⟨u.business_id, (cbName u.data).getD "", cbPhone u.data,
             cbEmail u.data, cbDescription u.data, cbCity u.data, u.status,
             now, now, [agentNote u]⟩ : Business)) := by
      simp only [agent_callback, if_neg hcal, hunk, if_neg hcond]
    rw [hstep]
    exact ⟨rfl, rfl, dGet_dSet_self bs u.business_id _,
      fun k hk => dGet_dSet_ne bs u.business_id k _ hk⟩
  · intro hcal
    simp only [agent_callback, if_pos hcal, hunk]

/-- Witness for C6's amended statement: an unknown id with name and city
present is created and broadcast once by a non-calendar agent, while the
same payload from the calendar agent changes nothing and only emits the
calendar notification. -/
theorem entity_synthesis_validation_witness :
    (agent_callback []
        { agent_type := AgentType.sdr, business_id := "b2",
          status := BusinessStatus.found, message := "m",
          data := [("name", "Acme"), ("city", "LA")] } 7).1 = 200 ∧
    (agent_callback []
        { agent_type := AgentType.sdr, business_id := "b2",
          status := BusinessStatus.found, message := "m",
          data := [("name", "Acme"), ("city", "LA")] } 7).2.1 =
      ["business_updated"] ∧
    agent_callback []
        { agent_type := AgentType.calendar, business_id := "b2",
          status := BusinessStatus.found, message := "m",
          data := [("name", "Acme"), ("city", "LA")] } 7 =
      (200, ["calendar_notification"], []) :=
  ⟨((entity_synthesis_validation []
      { agent_type := AgentType.sdr, business_id := "b2",
        status := BusinessStatus.found, message := "m",
        data := [("name", "Acme"), ("city", "LA")] } 7
      (by decide)).2.1 (by decide) (by decide)).1,
   ((entity_synthesis_validation []
      { agent_type := AgentType.sdr, business_id := "b2",
        status := BusinessStatus.found, message := "m",
        data := [("name", "Acme"), ("city", "LA")] } 7
      (by decide)).2.1 (by decide) (by decide)).2.1,
   (entity_synthesis_validation []
      { agent_type := AgentType.calendar, business_id := "b2",
        status := BusinessStatus.found, message := "m",
        data := [("name", "Acme"), ("city", "LA")] } 7
      (by decide)).2.2 (by decide)⟩

/-- C7. Append-only notes and advancing timestamp: an update for a known
id leaves the entity's notes equal to the prior list with exactly one
element appended, and sets `updated_at` to the current clock reading —
strictly greater than before under the hypothesis `hts` that the
`datetime.now()` reading has advanced since the entity was last written
(the code assigns the clock value; it does not itself enforce
strictness). -/
theorem notes_append_updatedAt (bs : Businesses) (u : AgentUpdate) (now : Nat)
    (b : Business) (hb : dGet bs u.business_id = some b)
    (hts : b.updated_at < now) :
    ∃ b2, dGet (agent_callback bs u now).2.2 u.business_id = some b2 ∧
      b2.notes = b.notes ++ [agentNote u] ∧
      b.updated_at < b2.updated_at ∧
      b2.updated_at = now := by
  unfold agent_callback
  by_cases hcal : u.agent_type = AgentType.calendar
  · rw [if_pos hcal]
    simp only [hb]
    exact ⟨_, dGet_dSet_self bs u.business_id _, rfl, hts, rfl⟩
  · rw [if_neg hcal]
    simp only [hb]
    exact ⟨_, dGet_dSet_self bs u.business_id _, rfl, hts, rfl⟩

/-- Witness for C7 at a concrete known entity and a later clock reading. -/
theorem notes_append_updatedAt_witness :
    ∃ b2, dGet (agent_callback
        [("b3", { id := "b3", name := "N", phone := none, email := none,
                  description := none, city := "", status := BusinessStatus.found,
                  created_at := 0, updated_at := 1, notes := ["n0"] })]
        { agent_type := AgentType.sdr, business_id := "b3",
          status := BusinessStatus.engaged, message := "m2",
          data := [] } 9).2.2 "b3" = some b2 ∧
      b2.notes = ({ id := "b3", name := "N", phone := none, email := none,
                    description := none, city := "", status := BusinessStatus.found,
                    created_at := 0, updated_at := 1,
                    notes := ["n0"] } : Business).notes ++
        [agentNote { agent_type := AgentType.sdr, business_id := "b3",
                     status := BusinessStatus.engaged, message := "m2",
                     data := [] }] ∧
      ({ id := "b3", name := "N", phone := none, email := none,
         description := none, city := "", status := BusinessStatus.found,
         created_at := 0, updated_at := 1,
         notes := ["n0"] } : Business).updated_at < b2.updated_at ∧
      b2.updated_at = 9 :=
  notes_append_updatedAt
    [("b3", { id := "b3", name := "N", phone := none, email := none,
              description := none, city := "", status := BusinessStatus.found,
              created_at := 0, updated_at := 1, notes := ["n0"] })]
    { agent_type := AgentType.sdr, business_id := "b3",
      status := BusinessStatus.engaged, message := "m2", data := [] }
    9
    { id := "b3", name := "N", phone := none, email := none,
      description := none, city := "", status := BusinessStatus.found,
      created_at := 0, updated_at := 1, notes := ["n0"] }
    (by decide) (by decide)

/-- Counterexample for C8: two attempts whose provider-issued auth configs
carry the same state token "s" do not register two distinct state tokens —
the second `_prepare_auth_request` overwrites the first attempt's future
(the map ends with the single binding owned by attempt 2, and attempt 1's
waiter is no longer reachable from the map). -/
theorem oauth_state_collision :
    prepare_auth_request (prepare_auth_request [] "s" 1) "s" 2 =
      [("s", (2, FutureState.waiting))] ∧
    (prepare_auth_request (prepare_auth_request [] "s" 1) "s" 2).length = 1 := by
  decide

/-- C8 as amended: provided the two attempts carry distinct state tokens,
both waiters are registered under their own token; delivering a callback
for one token resolves exactly that token's waiter and leaves every other
binding unchanged, and a callback for an unregistered token changes
nothing.  (The executor neither generates the token nor guards against
reuse — see the collision counterexample.) -/
theorem oauth_state_isolation (m : AwaitingAuth) (t1 t2 uri : String)
    (o1 o2 : Nat) (hne : t1 ≠ t2) :
    dGet (prepare_auth_request (prepare_auth_request m t1 o1) t2 o2) t1 =
      some (o1, FutureState.waiting) ∧
    dGet (prepare_auth_request (prepare_auth_request m t1 o1) t2 o2) t2 =
      some (o2, FutureState.waiting) ∧
    (∀ m3, on_auth_callback (prepare_auth_request (prepare_auth_request m t1 o1) t2 o2)
        t1 uri = some m3 →
      dGet m3 t1 = some (o1, FutureState.resolved uri) ∧
      ∀ t, t ≠ t1 →
        dGet m3 t = dGet (prepare_auth_request (prepare_auth_request m t1 o1) t2 o2) t) ∧
    (∀ s2, dGet m s2 = none → on_auth_callback m s2 uri = some m) := by
  have h1 : dGet (prepare_auth_request (prepare_auth_request m t1 o1) t2 o2) t1 =
      some (o1, FutureState.waiting) := by
    unfold prepare_auth_request
    rw [dGet_dSet_ne _ t2 t1 _ hne]
    exact dGet_dSet_self m t1 _
  refine ⟨h1, ?_, ?_, ?_⟩
  · unfold prepare_auth_request
    exact dGet_dSet_self _ t2 _
  · intro m3 hm3
    unfold on_auth_callback at hm3
    rw [h1] at hm3
    simp only [Option.some.injEq] at hm3
    rw [← hm3]
    exact ⟨dGet_dSet_self _ t1 _, fun t ht => dGet_dSet_ne _ t1 t _ ht⟩
  · intro s2 hs2
    simp only [on_auth_callback, hs2]

/-- Witness for C8's amended statement at two distinct concrete tokens. -/
theorem oauth_state_isolation_witness :
    dGet (prepare_auth_request (prepare_auth_request [] "s1" 1) "s2" 2) "s1" =
      some (1, FutureState.waiting) ∧
    dGet (prepare_auth_request (prepare_auth_request [] "s1" 1) "s2" 2) "s2" =
      some (2, FutureState.waiting) :=
  ⟨(oauth_state_isolation [] "s1" "s2" "u" 1 2 (by decide)).1,
   (oauth_state_isolation [] "s1" "s2" "u" 1 2 (by decide)).2.1⟩

/-- C10. UI relay resilience: for a request id present in the UI's pending
store, `submit_human_input_response` returns HTTP 200 with status
"success" and broadcasts `human_input_response_submitted` whatever the
relay outcome (connection error or non-200 reply included); the pending
entry is removed only when the relay returned HTTP 200, so after a failed
relay the store is unchanged and the request can be submitted again. -/
theorem ui_submit_relay_resilient (pending : List (String × UiHumanInputRequest))
    (request_id response : String) (relay : Option Nat)
    (req : UiHumanInputRequest)
    (h : dGet pending request_id = some req)
    (hnd : (dKeys pending).Nodup) :
    (submit_human_input_response pending request_id response relay).1 =
      (200, "success") ∧
    (submit_human_input_response pending request_id response relay).2.1 =
      ["human_input_response_submitted"] ∧
    (relay ≠ some 200 →
      (submit_human_input_response pending request_id response relay).2.2 = pending) ∧
    (relay = some 200 →
      dGet (submit_human_input_response pending request_id response relay).2.2
        request_id = none) := by
  unfold submit_human_input_response
  simp only [h]
  refine ⟨trivial, trivial, ?_, ?_⟩
  · intro hr
    have hb : (relay == some 200) = false := by
      simp only [beq_eq_false_iff_ne, ne_eq]
      exact hr
    simp [hb]
  · intro hr
    subst hr
    have hb : ((some 200 : Option Nat) == some 200) = true := by simp
    simp only [hb, if_true]
    exact dGet_dErase_self pending request_id hnd

/-- Witness for C10: a stored request relayed unsuccessfully (connection
error) still yields 200/"success" and keeps the entry. -/
theorem ui_submit_relay_resilient_witness :
    (submit_human_input_response
        [("r1", { request_id := "r1", prompt := "p",
                  input_type := "website_creation", timestamp := "t" })]
        "r1" "resp" none).1 = (200, "success") ∧
    (submit_human_input_response
        [("r1", { request_id := "r1", prompt := "p",
                  input_type := "website_creation", timestamp := "t" })]
        "r1" "resp" none).2.2 =
      [("r1", { request_id := "r1", prompt := "p",
                input_type := "website_creation", timestamp := "t" })] :=
  ⟨(ui_submit_relay_resilient
      [("r1", { request_id := "r1", prompt := "p",
                input_type := "website_creation", timestamp := "t" })]
      "r1" "resp" none
      { request_id := "r1", prompt := "p",
        input_type := "website_creation", timestamp := "t" }
      (by decide) (by decide)).1,
   (ui_submit_relay_resilient
      [("r1", { request_id := "r1", prompt := "p",
                input_type := "website_creation", timestamp := "t" })]
      "r1" "resp" none
      { request_id := "r1", prompt := "p",
        input_type := "website_creation", timestamp := "t" }
      (by decide) (by decide)).2.2.1 (by decide)⟩
